import Mathlib

/-!
Verification of the rate limiter (`throttle`) of js-functools, src/index.ts.

The embedding translates the source closures into explicit state passing.
The mutable variables of the `throttle` closure, `pending : T | undefined`
and `timeout` (the armed setTimeout handle), become a `ThrottleState`
record with `pending : Option α` and `timeout : Option Nat`, where an
armed timer is represented by its absolute deadline in milliseconds.
Each inner function of the source (`throttled`, `next`, `flush`, `clear`)
becomes a transition on that state; invoking the wrapped function `fn`
becomes an output of type `Option α` (the argument tuple delivered by this
step, `none` when the step does not invoke `fn`).  A small event-driven
scheduler `run` replays a timed call/flush/clear script, firing armed
deadlines in order, and collects the trace of (time, argument) executions.
-/

namespace Functools

/-- Throttle configuration as accepted at construction: the source declares
every field optional (`leading?: boolean` and so on). -/
structure ThrottleOptions where
  leading : Option Bool := none
  trailing : Option Bool := none
  debounce : Option Bool := none
deriving DecidableEq

/-- Resolved configuration, after the destructuring defaults on the first
line of `throttle`: `{ leading = true, trailing = true, debounce = false }`. -/
structure ThrottleConfig where
  leading : Bool
  trailing : Bool
  debounce : Bool
deriving DecidableEq

/-- Destructuring defaults of `throttle`, source line 131. -/
def resolveOptions (o : ThrottleOptions) : ThrottleConfig :=
  ⟨o.leading.getD true, o.trailing.getD true, o.debounce.getD false⟩

/-- Configuration obtained when no options object is passed. -/
def defaultConfig : ThrottleConfig := resolveOptions {}

/-- State closed over by the source closures: `pending` holds the most
recently captured argument tuple, `timeout` the armed timer, modelled as
its absolute deadline (`none` when `timeout === undefined`). -/
structure ThrottleState (α : Type) where
  pending : Option α
  timeout : Option Nat
deriving DecidableEq

/-- State of a freshly constructed limiter: `pending` and `timeout` both
start out `undefined`. -/
def initState {α : Type} : ThrottleState α := ⟨none, none⟩

/-- Constructor `throttle(fn, ms, config)`.  The source body contains no
validation and no throw statement, so in the `Except` convention for
fallible code every input maps to `Except.ok`: construction resolves the
option defaults and initialises the state.  The delay is taken as `Int`
to make the behaviour on negative delays statable. -/
def throttle (α : Type) (ms : Int) (opts : ThrottleOptions) :
    Except String (Int × ThrottleConfig × ThrottleState α) :=
  Except.ok (ms, resolveOptions opts, initState)

/-- Inner function `next`, source lines 150 to 158: clear `timeout`, return
early when nothing is pending; otherwise take the pending arguments, invoke
`fn` with them when `trailing` is set, and re-arm the timer for `ms`. -/
def next (cfg : ThrottleConfig) (ms now : Nat) (s : ThrottleState α) :
    ThrottleState α × Option α :=
  match s.pending with
  | none => (⟨none, none⟩, none)
  | some args =>
      (⟨none, some (now + ms)⟩, if cfg.trailing then some args else none)

/-- Inner function `flush`, source lines 144 to 147: cancel the armed timer
and run `next` synchronously.  Cancelling the timer is subsumed by `next`
overwriting the `timeout` field, which is how this model represents the
single armed timer. -/
def flush (cfg : ThrottleConfig) (ms now : Nat) (s : ThrottleState α) :
    ThrottleState α × Option α :=
  next cfg ms now s

/-- Inner function `clear`, source lines 137 to 141: cancel the timer and
discard the state without invoking anything. -/
def clear (_s : ThrottleState α) : ThrottleState α := ⟨none, none⟩

/-- The wrapper `throttled`, source lines 161 to 179: capture the arguments
into `pending` unconditionally; with no timer armed, run a leading
execution when `leading` is set (consuming `pending`) and arm the timer;
with a timer armed and `debounce` set, re-arm the timer for a fresh `ms`;
otherwise leave the existing deadline standing. -/
def throttled (cfg : ThrottleConfig) (ms now : Nat) (args : α)
    (s : ThrottleState α) : ThrottleState α × Option α :=
  match s.timeout with
  | none =>
      if cfg.leading then (⟨none, some (now + ms)⟩, some args)
      else (⟨some args, some (now + ms)⟩, none)
  | some d =>
      if cfg.debounce then (⟨some args, some (now + ms)⟩, none)
      else (⟨some args, some d⟩, none)

/-- External stimulus for the scheduler: a call to the wrapper, a `flush`,
a `clear`, or a pure passage of time letting armed deadlines fire. -/
inductive Event (α : Type) where
  | call (args : α)
  | flush
  | clear
  | observe
deriving DecidableEq

/-- Trace entry produced by one step: the delivered arguments stamped with
the time of delivery. -/
def fireOut (t : Nat) : Option α → List (Nat × α)
  | some a => [(t, a)]
  | none => []

/-- Fire every armed deadline that is due by time `t`, in order.  Each
firing runs the timer handler `next` at its deadline.  Between two external
events at most two firings can occur (a firing with a pending call re-arms
once; the re-armed firing finds nothing pending and goes idle), so a small
structural fuel bounds the recursion. -/
def advance (cfg : ThrottleConfig) (ms : Nat) :
    Nat → Nat → ThrottleState α → ThrottleState α × List (Nat × α)
  | 0, _, s => (s, [])
  | fuel + 1, t, s =>
      match s.timeout with
      | some d =>
          if d ≤ t then
            let r := next cfg ms d s
            let rest := advance cfg ms fuel t r.1
            (rest.1, fireOut d r.2 ++ rest.2)
          else (s, [])
      | none => (s, [])

/-- Replay a script of timed events (times non-decreasing) against the
limiter, firing due deadlines before each event, and collect the execution
trace. -/
def run (cfg : ThrottleConfig) (ms : Nat) :
    List (Nat × Event α) → ThrottleState α → ThrottleState α × List (Nat × α)
  | [], s => (s, [])
  | (t, e) :: evs, s =>
      let a := advance cfg ms 3 t s
      let step : ThrottleState α × Option α :=
        match e with
        | Event.call args => throttled cfg ms t args a.1
        | Event.flush => flush cfg ms t a.1
        | Event.clear => (clear a.1, none)
        | Event.observe => (a.1, none)
      let r := run cfg ms evs step.1
      (r.1, a.2 ++ fireOut t step.2 ++ r.2)

/-- Result of one operation when the wrapped function may raise: either the
exception escapes, carrying the state at the moment of the raise, or the
operation returns normally with its state and output. -/
inductive ExnResult (α : Type) where
  | thrown (s : ThrottleState α)
  | normal (s : ThrottleState α) (out : Option α)
deriving DecidableEq

/-- Exception-aware `next`: the source invokes `fn` after clearing both
`timeout` (first line) and `pending` (taken into a local), so a raise
inside `fn` skips only the trailing `timeout = setTimeout(next, ms)` line
and escapes with `pending` and `timeout` both cleared.  `throws` states
whether `fn` raises when invoked. -/
def nextExn (cfg : ThrottleConfig) (ms now : Nat) (throws : Bool)
    (s : ThrottleState α) : ExnResult α :=
  match s.pending with
  | none => ExnResult.normal ⟨none, none⟩ none
  | some args =>
      if cfg.trailing then
        if throws then ExnResult.thrown ⟨none, none⟩
        else ExnResult.normal ⟨none, some (now + ms)⟩ (some args)
      else ExnResult.normal ⟨none, some (now + ms)⟩ none

/-- Exception-aware `flush`: cancel the timer, then `next`. -/
def flushExn (cfg : ThrottleConfig) (ms now : Nat) (throws : Bool)
    (s : ThrottleState α) : ExnResult α :=
  nextExn cfg ms now throws s

/-- Exception-aware `throttled`: on the leading path the source clears
`pending` and invokes `fn` before arming the timer, so a raise escapes
with `pending` and `timeout` both undefined; the remaining paths do not
invoke `fn` at all. -/
def throttledExn (cfg : ThrottleConfig) (ms now : Nat) (throws : Bool)
    (args : α) (s : ThrottleState α) : ExnResult α :=
  match s.timeout with
  | none =>
      if cfg.leading then
        if throws then ExnResult.thrown ⟨none, none⟩
        else ExnResult.normal ⟨none, some (now + ms)⟩ (some args)
      else ExnResult.normal ⟨some args, some (now + ms)⟩ none
  | some d =>
      if cfg.debounce then ExnResult.normal ⟨some args, some (now + ms)⟩ none
      else ExnResult.normal ⟨some args, some d⟩ none

/-- Invariant relating the two state fields at quiescent points: arguments
are pending only while a timer is armed. -/
def windowInv (s : ThrottleState α) : Bool :=
  s.pending.isNone || s.timeout.isSome

/-- C1: with the default configuration and delay 100, calls at t = 0, 20,
40, 60, 80 produce exactly two executions: a leading one at t = 0 with the
t = 0 arguments and a trailing one at t = 100 with the t = 80 arguments;
the arguments of the t = 20, 40 and 60 calls are never delivered. -/
theorem throttle_trailing_coalescing :
    (run defaultConfig 100
      [(0, Event.call 0), (20, Event.call 1), (40, Event.call 2),
       (60, Event.call 3), (80, Event.call 4), (1000, Event.observe)]
      (initState : ThrottleState Nat)).2 = [(0, 0), (100, 4)] := by decide

/-- C2, counterexample: after a leading call at t = 0, a coalesced call at
t = 10 and a `flush` at t = 20, the limiter is not idle: `flush` re-armed
the timer for deadline 120.  A second immediate `flush` is not a state
no-op either: it cancels that re-armed timer, returning the state to the
freshly constructed one. -/
theorem flush_not_idle_cex :
    (run defaultConfig 100
      [(0, Event.call 0), (10, Event.call 1), (20, Event.flush)]
      (initState : ThrottleState Nat)).1 = ⟨none, some 120⟩ ∧
    (run defaultConfig 100
      [(0, Event.call 0), (10, Event.call 1), (20, Event.flush)]
      (initState : ThrottleState Nat)).1.timeout ≠ none ∧
    (run defaultConfig 100
      [(0, Event.call 0), (10, Event.call 1), (20, Event.flush),
       (21, Event.flush)]
      (initState : ThrottleState Nat)).1 = initState := by decide

/-- C2, amended: `flush` executes the pending call when `trailing` is set
and discards it otherwise, and it never leaves a call pending; but when a
call was pending it re-arms the delay timer instead of leaving the limiter
idle.  A second immediate `flush` performs no execution (no double
execution) and closes the window. -/
theorem flush_never_leaves_pending (cfg : ThrottleConfig) (ms now now2 : Nat)
    (s : ThrottleState α) :
    (flush cfg ms now s).1.pending = none ∧
    (flush cfg ms now s).2 = (if cfg.trailing then s.pending else none) ∧
    (flush cfg ms now s).1.timeout
      = (if s.pending.isSome then some (now + ms) else none) ∧
    flush cfg ms now2 (flush cfg ms now s).1 = (⟨none, none⟩, none) := by
  rcases s with ⟨p, t⟩
  rcases cfg with ⟨l, tr, db⟩
  cases p <;> cases tr <;> simp [flush, next]

/-- C3, counterexample: with the default configuration and delay 100, a
leading call at t = 0 followed by a single further call at t = 10 and then
silence produces a second execution, at the t = 100 deadline with the
t = 10 arguments, contradicting the claim that no further execution occurs
when no further calls arrive before the deadline. -/
theorem second_call_trailing_executes_cex :
    (run defaultConfig 100
      [(0, Event.call 0), (10, Event.call 1), (1000, Event.observe)]
      (initState : ThrottleState Nat)).2 = [(0, 0), (100, 1)] ∧
    (run defaultConfig 100
      [(0, Event.call 0), (10, Event.call 1), (1000, Event.observe)]
      (initState : ThrottleState Nat)).2 ≠ [(0, 0)] := by decide

/-- C3, amended: with `leading` and `trailing` both set, a first call with
no timer armed executes immediately and empties the pending slot, so the
deadline firing after a single call executes nothing; a second call made
while the window is open does not execute immediately and leaves the
deadline standing, and the deadline firing then executes it exactly once,
with the second call's arguments, re-arming the window. -/
theorem leading_window_second_call (ms now t d d2 d3 : Nat) (a b : α) :
    throttled defaultConfig ms now a initState
      = (⟨none, some (now + ms)⟩, some a) ∧
    next defaultConfig ms d (⟨none, some d2⟩ : ThrottleState α)
      = (⟨none, none⟩, none) ∧
    throttled defaultConfig ms t b (⟨none, some d⟩ : ThrottleState α)
      = (⟨some b, some d⟩, none) ∧
    next defaultConfig ms d (⟨some b, some d3⟩ : ThrottleState α)
      = (⟨none, some (d + ms)⟩, some b) :=
  ⟨rfl, rfl, rfl, rfl⟩

/-- C4: with `leading = false, debounce = true, trailing = true` and delay
100, calls every 20 ms for 80 ms followed by silence produce exactly one
execution, at t = 180, i.e. 100 ms after the last call, with the last
call's arguments; and in general every call arriving while the window is
open replaces the armed deadline with a fresh one a full delay ahead. -/
theorem debounce_scenario_and_rearm (α : Type) :
    (run (⟨false, true, true⟩ : ThrottleConfig) 100
      [(0, Event.call 0), (20, Event.call 1), (40, Event.call 2),
       (60, Event.call 3), (80, Event.call 4), (1000, Event.observe)]
      (initState : ThrottleState Nat)).2 = [(180, 4)] ∧
    ∀ (l tr : Bool) (ms now d : Nat) (p : Option α) (a : α),
      throttled ⟨l, tr, true⟩ ms now a ⟨p, some d⟩
        = (⟨some a, some (now + ms)⟩, none) :=
  ⟨by decide, fun _ _ _ _ _ _ _ => rfl⟩

/-- C5: `clear` always returns the freshly constructed state, from which
no armed deadline can ever fire (so calls made before the `clear` cause no
future executions); on the freshly constructed state `clear` leaves the
state unchanged (idempotence); and concretely a non-leading call at t = 0
followed by `clear` at t = 50 yields zero executions, ever. -/
theorem clear_safety (cfg : ThrottleConfig) (ms fuel t : Nat)
    (s : ThrottleState α) :
    clear s = initState ∧
    advance cfg ms fuel t (initState : ThrottleState α) = (initState, []) ∧
    clear (initState : ThrottleState α) = initState ∧
    run (⟨false, true, false⟩ : ThrottleConfig) 100
      [(0, Event.call 0), (50, Event.clear), (1000, Event.observe)]
      (initState : ThrottleState Nat) = (initState, []) := by
  refine ⟨rfl, ?_, rfl, by decide⟩
  cases fuel <;> rfl

/-- C6, counterexample: construction with the negative delay -5 raises no
configuration error: the source performs no validation of the delay, so
`throttle` returns a limiter with the default configuration and the idle
initial state. -/
theorem construct_negative_delay_no_error_cex :
    throttle Nat (-5) {} = Except.ok (-5, defaultConfig, initState) := rfl

/-- C6, amended: construction never raises, whatever the delay (negative
included); delay 0 raises no error; and the configuration fields default
to `leading = true, trailing = true, debounce = false`. -/
theorem construct_never_errors_defaults (α : Type) (ms : Int)
    (o : ThrottleOptions) :
    throttle α ms o = Except.ok (ms, resolveOptions o, initState) ∧
    throttle α 0 {} = Except.ok (0, defaultConfig, initState) ∧
    defaultConfig = ⟨true, true, false⟩ :=
  ⟨rfl, rfl, rfl⟩

/-- C7, counterexample: a throwing wrapped function does not leave the
limiter in the state a successful call would have produced.  On a leading
execution from the idle state, success arms the delay timer, while a throw
escapes before the `setTimeout` line, leaving the limiter idle; the two
states differ. -/
theorem throwing_target_state_differs_cex :
    throttledExn defaultConfig 100 0 true (0 : Nat) initState
      = ExnResult.thrown ⟨none, none⟩ ∧
    throttledExn defaultConfig 100 0 false (0 : Nat) initState
      = ExnResult.normal ⟨none, some 100⟩ (some 0) ∧
    (⟨none, none⟩ : ThrottleState Nat) ≠ ⟨none, some 100⟩ := by decide

/-- C7, amended: when the wrapped function throws during an execution, the
exception escapes the triggering operation with the limiter in the
consistent idle state, pending already cleared and no timer armed (the
re-arm after the invocation is skipped, so the state is idle rather than
the armed state of a successful call); when the operation does not invoke
the function, or the function returns normally, the exception-aware
semantics coincides with the pure transition. -/
theorem throwing_target_leaves_idle (cfg : ThrottleConfig) (ms now : Nat)
    (a : α) (s : ThrottleState α) (throws : Bool) :
    nextExn cfg ms now throws s
      = (if throws && s.pending.isSome && cfg.trailing then
          ExnResult.thrown initState
        else ExnResult.normal (next cfg ms now s).1 (next cfg ms now s).2) ∧
    throttledExn cfg ms now throws a s
      = (if throws && s.timeout.isNone && cfg.leading then
          ExnResult.thrown initState
        else ExnResult.normal (throttled cfg ms now a s).1
          (throttled cfg ms now a s).2) ∧
    flushExn cfg ms now throws s = nextExn cfg ms now throws s := by
  rcases s with ⟨p, t⟩
  rcases cfg with ⟨l, tr, db⟩
  refine ⟨?_, ?_, rfl⟩ <;>
    cases p <;> cases t <;> cases l <;> cases tr <;> cases db <;>
      cases throws <;> rfl

/-- C8: at every quiescent point, arguments are pending only while a timer
is armed: the state produced by each of the four operations (a call to the
wrapper, the timer handler, `flush`, `clear`) satisfies the invariant, as
does the initial state. -/
theorem window_invariant_preserved (cfg : ThrottleConfig) (ms now : Nat)
    (a : α) (s : ThrottleState α) :
    windowInv (throttled cfg ms now a s).1 = true ∧
    windowInv (next cfg ms now s).1 = true ∧
    windowInv (flush cfg ms now s).1 = true ∧
    windowInv (clear s) = true ∧
    windowInv (initState : ThrottleState α) = true := by
  rcases s with ⟨p, t⟩
  rcases cfg with ⟨l, tr, db⟩
  refine ⟨?_, ?_, ?_, rfl, rfl⟩ <;>
    cases p <;> cases t <;> cases l <;> cases tr <;> cases db <;> rfl

/-- With `trailing = false` the timer handler delivers no output. -/
theorem next_silent (l db : Bool) (ms now : Nat) (s : ThrottleState α) :
    (next ⟨l, false, db⟩ ms now s).2 = none := by
  rcases s with ⟨p, t⟩
  cases p <;> rfl

/-- With `leading = false` the wrapper call delivers no output. -/
theorem throttled_silent (tr db : Bool) (ms now : Nat) (a : α)
    (s : ThrottleState α) :
    (throttled ⟨false, tr, db⟩ ms now a s).2 = none := by
  rcases s with ⟨p, t⟩
  cases t <;> cases db <;> rfl

/-- With `trailing = false` firing due deadlines produces an empty trace. -/
theorem advance_silent (l db : Bool) (ms fuel t : Nat) (s : ThrottleState α) :
    (advance ⟨l, false, db⟩ ms fuel t s).2 = [] := by
  induction fuel generalizing s with
  | zero => rfl
  | succ n ih =>
      rcases s with ⟨p, tmo⟩
      cases tmo with
      | none => rfl
      | some d =>
          simp only [advance]
          split
          · simp [fireOut, next_silent, ih]
          · rfl

/-- With `leading = false` and `trailing = false` every event script yields
an empty execution trace. -/
theorem run_silent (db : Bool) (ms : Nat) (evs : List (Nat × Event α))
    (s : ThrottleState α) :
    (run ⟨false, false, db⟩ ms evs s).2 = [] := by
  induction evs generalizing s with
  | nil => rfl
  | cons ev evs ih =>
      rcases ev with ⟨t, e⟩
      cases e <;>
        simp [run, fireOut, flush, advance_silent, next_silent,
          throttled_silent, ih]

/-- C9: with `leading = false` and `trailing = false` the wrapped function
is never invoked: every script of calls, timer firings, flushes and clears
produces an empty execution trace; the wrapper still captures arguments
into the pending slot, and the timer handler silently discards them while
still re-arming the window. -/
theorem never_executes_without_leading_trailing (db : Bool) (ms : Nat)
    (evs : List (Nat × Event α)) (s : ThrottleState α) (now : Nat) (a : α)
    (tmo : Option Nat) :
    (run (⟨false, false, db⟩ : ThrottleConfig) ms evs s).2 = [] ∧
    (throttled (⟨false, false, db⟩ : ThrottleConfig) ms now a s).1.pending
      = some a ∧
    next (⟨false, false, db⟩ : ThrottleConfig) ms now
        (⟨some a, tmo⟩ : ThrottleState α)
      = (⟨none, some (now + ms)⟩, none) := by
  refine ⟨run_silent db ms evs s, ?_, rfl⟩
  rcases s with ⟨p, t⟩
  cases t <;> cases db <;> rfl

/-- C10: `flush` while a timer is armed but nothing is pending cancels the
timer and closes the window, executing nothing and re-arming nothing; a
call made immediately afterwards therefore performs a fresh leading
execution, even though less than the configured delay has elapsed since
the previous execution. -/
theorem flush_without_pending_closes_window (tr db : Bool)
    (ms now d ms2 now2 : Nat) (a : α) :
    flush (⟨true, tr, db⟩ : ThrottleConfig) ms now
        (⟨none, some d⟩ : ThrottleState α) = (⟨none, none⟩, none) ∧
    throttled (⟨true, tr, db⟩ : ThrottleConfig) ms2 now2 a
        (⟨none, none⟩ : ThrottleState α)
      = (⟨none, some (now2 + ms2)⟩, some a) :=
  ⟨rfl, rfl⟩

end Functools
